import Mathlib

/-!
Shallow embedding of the vehicle-evaluation pipeline of the jason-logic
repository: the submitEvaluation handlers and their revisions, the recall
registry endpoint, the listing scraper short-circuit, and the audit logger.
Network effects are modelled by passing each external call result as an
explicit `Except` value; JavaScript string truthiness is modelled by
treating the empty string as the only falsy string value.
-/

namespace JasonLogic

/-- JavaScript `a || b` on strings: the empty string is falsy, every other
string is truthy. Missing object fields are modelled as the empty string. -/
def jsOr (a b : String) : String :=
  if a = "" then b else a

/-- Check that the first char list leads the second one. -/
def leadingChars : List Char → List Char → Bool
  | [], _ => true
  | _ :: _, [] => false
  | a :: as, b :: bs => a == b && leadingChars as bs

/-- Check that `pat` occurs contiguously somewhere in the char list. -/
def charsContain (pat : List Char) : List Char → Bool
  | [] => pat.isEmpty
  | c :: rest => leadingChars pat (c :: rest) || charsContain pat rest

/-- JavaScript `s.startsWith(pre)`. -/
def jsStartsWith (s pre : String) : Bool :=
  leadingChars pre.data s.data

/-- JavaScript `s.includes(pat)`: substring containment, true on the empty
pattern. -/
def jsIncludes (s pat : String) : Bool :=
  charsContain pat.data s.data

/-- JavaScript `s.toLowerCase()`. -/
def jsToLower (s : String) : String :=
  ⟨s.data.map Char.toLower⟩

/-! ## Identity resolution (src/unnamed/part_002, runFullEvaluationLogic lines 188-201;
src/api/submitEvaluation.js, decodeVin lines 375-384) -/

/-- Decoded VIN attributes, `data.Results[0]` of the registry response.
Fields absent from the JSON object are the empty string. -/
structure DecodedData where
  ModelYear : String
  Make : String
  Model : String
deriving DecidableEq, Repr

/-- Result object of `decodeVin`: either the NHTSA payload or the caught
error object built in the catch branch. -/
inductive VinResult where
  | nhtsa (data : DecodedData)
  | err (msg : String)
deriving DecidableEq, Repr

/-- Embeds `decodeVin` with the fetch outcome passed explicitly: on any
fetch, json-parse or missing-Results failure the catch branch returns the
error object; the function itself never raises. -/
def decodeVin (fetchResult : Except String DecodedData) : VinResult :=
  match fetchResult with
  | .ok d => .nhtsa d
  | .error e => .err e

/-- The empty `decodedData = {}` object. -/
def emptyDecoded : DecodedData := ⟨"", "", ""⟩

/-- The three identity values `recallYear`, `recallMake`, `recallModel`
computed by `runFullEvaluationLogic`. -/
structure ResolvedIdentity where
  recallYear : String
  recallMake : String
  recallModel : String
deriving DecidableEq, Repr

/-- Identity resolution of `runFullEvaluationLogic` (part_002 lines 191-201):
`decodedData` is filled only when a VIN is present and the decode returned a
data object, then each field is resolved by the JS fallback chains
`year || decodedData.ModelYear || currentYear`,
`make || decodedData.Make || ""`, `model || decodedData.Model || ""`. -/
def resolveIdentity (vin : String) (fetchResult : Except String DecodedData)
    (year make model currentYear : String) : ResolvedIdentity :=
  let decodedData : DecodedData :=
    if vin ≠ "" then
      match decodeVin fetchResult with
      | .nhtsa d => d
      | .err _ => emptyDecoded
    else emptyDecoded
  { recallYear := jsOr year (jsOr decodedData.ModelYear currentYear)
    recallMake := jsOr make (jsOr decodedData.Make "")
    recallModel := jsOr model (jsOr decodedData.Model "") }

/-! ## Photo validation and forwarding (src/api/submitEvaluation.js lines 68-71;
src/unnamed/part_002 lines 269-286) -/

/-- An uploaded photo as formidable presents it: byte size and declared
MIME type. -/
structure Photo where
  size : Nat
  mimetype : String
deriving DecidableEq, Repr

/-- The forwarding predicate of the source:
`file && file.size > 0 && file.mimetype?.startsWith("image/")`. -/
def isForwardablePhoto (p : Photo) : Bool :=
  decide (0 < p.size) && jsStartsWith p.mimetype "image/"

/-- Photo selection of the source: `uploads.slice(0, 2)` first, then
`.filter(file => file.size > 0 && file.mimetype?.startsWith("image/"))`
(part_002 runs the same check inside the loop over `uploadFiles.slice(0, 2)`). -/
def selectUploads (photos : List Photo) : List Photo :=
  (photos.take 2).filter isForwardablePhoto

/-! ## Generation-job poll loops (src/api/submitEvaluation.js lines 97-102;
src/unnamed/part_002 lines 316-328) -/

/-- Early-revision poll loop (src/api/submitEvaluation.js lines 97-102):
`do { runStatus = retrieve(...); sleep(2000) } while (runStatus.status !== "completed")`.
`trace i` is the status string returned by the i-th retrieve. The loop has no
timeout, no retry cap and no check of the "failed" state, so we give it
explicit fuel; `none` means the fuel ran out with the loop still spinning. -/
def pollLoopV1 (trace : Nat → String) : Nat → Nat → Option Unit
  | _, 0 => none
  | i, fuel + 1 =>
    if trace i = "completed" then some ()
    else pollLoopV1 trace (i + 1) fuel

/-- Terminal outcome of the revised poll loop: break on completion, or one
of the two thrown errors. -/
inductive RunOutcome where
  | success
  | runFailed
  | timedOut
deriving DecidableEq, Repr

/-- Revised poll loop (part_002 lines 316-328): break on "completed", throw
on "failed", throw once `Date.now() - startTime > 60000`, else sleep 1500ms
and poll again. `elapsed i` is `Date.now() - startTime` observed at the i-th
iteration check. `none` again means the fuel ran out before a decision. -/
def pollLoopRun (trace : Nat → String) (elapsed : Nat → Nat) :
    Nat → Nat → Option RunOutcome
  | _, 0 => none
  | i, fuel + 1 =>
    if trace i = "completed" then some .success
    else if trace i = "failed" then some .runFailed
    else if 60000 < elapsed i then some .timedOut
    else pollLoopRun trace elapsed (i + 1) fuel

/-- A run whose status never becomes "completed" (here: stuck in queue). -/
def stuckTrace : Nat → String := fun _ => "queued"

/-- Clock model in which every poll iteration observes at least 1600ms more
elapsed time than the previous one. -/
def elapsedBy1600 : Nat → Nat := fun i => 1600 * i

/-! ## Enrichment fan-out (src/api/submitEvaluation.js lines 457-472;
src/unnamed/part_002, runFullEvaluationLogic lines 204-219) -/

/-- One ranked web-search result `{title, snippet, link}`. -/
structure SearchItem where
  title : String
  snippet : String
  link : String
deriving DecidableEq, Repr

/-- Parsed body of a search call; the initial `{}` placeholder objects are
modelled as the empty item list, which is how `formatResults` treats them
(`data.items?.length` is falsy for both). -/
structure SearchData where
  items : List SearchItem
deriving DecidableEq, Repr

/-- The search-data value an absent or failed branch keeps. -/
def emptySearchData : SearchData := ⟨[]⟩

/-- Recall payload as the evaluation pipeline reads it: `count` plus the
`summaries` array it dereferences; `summaries` is `none` when the JSON
object carries no such field. -/
structure RecallBody where
  count : Nat
  summaries : Option (List String)
deriving DecidableEq, Repr

/-- Recall fetch response before `.json()`: the `ok` flag checked by
`if (!rRes.ok) throw ...`, plus the parsed body. -/
structure RecallFetchResponse where
  ok : Bool
  body : RecallBody
deriving DecidableEq, Repr

/-- The four enrichment variables after the fan-out block:
`recallData`, `retailData`, `auctionData`, `vinSearchData`. -/
structure EnrichResults where
  recallData : Option RecallBody
  retailData : SearchData
  auctionData : SearchData
  vinSearchData : SearchData
deriving DecidableEq, Repr

/-- The initial values `recallData = null, retailData = {}, auctionData = {},
vinSearchData = {}` that survive when the catch branch runs. -/
def degradedEnrichment : EnrichResults :=
  ⟨none, emptySearchData, emptySearchData, emptySearchData⟩

/-- The fan-out block of `runFullEvaluationLogic`: the four calls are joined
by `Promise.all` inside one try, so the assignments happen only when every
promise resolved; a rejection of any branch, or a non-ok recall response
(`if (!rRes.ok) throw`), lands in the single catch, which logs and leaves all
four variables at their initial no-data values. When the VIN is absent the
caller passes the pre-resolved `{ items: [] }` as the fourth branch. -/
def runEnrichment (rRes : Except String RecallFetchResponse)
    (retailRes auctionRes vinRes : Except String SearchData) : EnrichResults :=
  match rRes, retailRes, auctionRes, vinRes with
  | .ok r, .ok retail, .ok auction, .ok vinD =>
    if r.ok then ⟨some r.body, retail, auction, vinD⟩
    else degradedEnrichment
  | _, _, _, _ => degradedEnrichment

/-! ## Recall block rendering (src/api/submitEvaluation.js lines 474-476;
src/unnamed/part_002 line 222) -/

/-- Numbered summary lines, `summaries.map((s, i) => i+1 + ". " + s)`. -/
def numberedLines (l : List String) : List String :=
  l.enum.map fun p => toString (p.1 + 1) ++ ". " ++ p.2

/-- The recall block of part_002:
`recallData?.count > 0 ? recallData.summaries.map(...).join("\n") ... : "No recall alerts found."`.
When `count > 0` but the object has no `summaries` array, the `.map` call on
`undefined` throws a TypeError, modelled as the `.error` case. -/
def buildRecallBlock (recallData : Option RecallBody) : Except String String :=
  match recallData with
  | none => .ok "No recall alerts found."
  | some d =>
    if 0 < d.count then
      match d.summaries with
      | some l =>
        .ok ("Recall Alerts (" ++ toString d.count ++ "):\n"
          ++ String.intercalate "\n" (numberedLines l)
          ++ "\n\nList each recall above exactly as shown.")
      | none => .error "TypeError: cannot read map of undefined summaries"
    else .ok "No recall alerts found."

/-! ## Recall registry endpoint (src/pages/api/recalls.js) -/

/-- One raw recall record of the data chunks; the registry filter reads the
field `Recall Description`, the part_001 consumer also reads `Subject`. -/
structure RecallRecord where
  recallDescription : Option String
  subject : Option String
deriving DecidableEq, Repr

/-- The registry filter predicate:
`r["Recall Description"]?.toLowerCase().includes(make.toLowerCase()) &&
 ... model ... && r["Recall Description"]?.includes(year)`;
a record with no description never matches (optional chaining yields
undefined, which is falsy). -/
def recallMatches (make model year : String) (r : RecallRecord) : Bool :=
  match r.recallDescription with
  | none => false
  | some d =>
    jsIncludes (jsToLower d) (jsToLower make)
      && jsIncludes (jsToLower d) (jsToLower model)
      && jsIncludes d year

/-- JSON response of the recalls endpoint, as an open object: the handler
sets `count` and `results` on success, `error` on failure; `summaries` is
listed because the evaluation pipeline reads it, and stays `none` since no
branch of the handler ever writes it. -/
structure RecallsApiResponse where
  status : Nat
  count : Option Nat
  results : Option (List RecallRecord)
  summaries : Option (List String)
  error : Option String
deriving DecidableEq, Repr

/-- The recalls endpoint handler: 400 when make, model or year is missing
(or empty, both falsy), 500 when loading the data chunks fails, otherwise
200 with `{ count: results.length, results }`. `chunks` is the concatenated
parse of the three data files. -/
def recallsHandler (make model year : Option String)
    (chunks : Except String (List RecallRecord)) : RecallsApiResponse :=
  match make, model, year with
  | some mk, some md, some yr =>
    if mk = "" || md = "" || yr = "" then
      ⟨400, none, none, none, some "Missing make, model, or year"⟩
    else
      match chunks with
      | .error _ => ⟨500, none, none, none, some "Failed to load recall data."⟩
      | .ok recalls =>
        let results := recalls.filter (recallMatches mk md yr)
        ⟨200, some results.length, some results, none, none⟩
  | _, _, _ => ⟨400, none, none, none, some "Missing make, model, or year"⟩

/-- How the evaluation pipeline turns the registry JSON into the
`recallData` object it dereferences: the fields it reads are `count` and
`summaries`. -/
def parseRecallResponse (resp : RecallsApiResponse) : RecallBody :=
  ⟨resp.count.getD 0, resp.summaries⟩

/-! ## Money-math post-processing (src/unnamed/part_002 lines 336-384) -/

/-- The four figures the regex
`/Repairs ... Fees \(TTL\) ... Max Price to Pay .../is` captures out of the
generated report, already parsed by `parseInt` after comma removal. -/
structure MoneyFigures where
  repairsLow : Nat
  repairsHigh : Nat
  fees : Nat
  maxToPay : Nat
deriving DecidableEq, Repr

/-- The rebuilt section-8 table rows. -/
structure MoneyMathTable where
  asking : Nat
  repairsLow : Nat
  repairsHigh : Nat
  fees : Nat
  allInLow : Nat
  allInHigh : Nat
  maxToPay : Nat
  savings : Int
deriving DecidableEq, Repr

/-- Money-math recomputation of `runFullEvaluationLogic` (part_002 lines
336-384): only for roles Buyer and Flipper, and only when the regex matched
(`matched`); `asking` is `Number(fields.price) || 0`, then
`allInLow = asking + repairsLow + fees`, `allInHigh = asking + repairsHigh + fees`,
`savings = asking - maxToPay`, and every captured figure, `maxToPay`
included, is written back into the replacement table verbatim. `none` means
the report is returned unchanged. -/
def recomputeMoneyMath (role : String) (price : Option Nat)
    (matched : Option MoneyFigures) : Option MoneyMathTable :=
  if role = "Buyer" ∨ role = "Flipper" then
    match matched with
    | some f =>
      let asking := price.getD 0
      some ⟨asking, f.repairsLow, f.repairsHigh, f.fees,
        asking + f.repairsLow + f.fees, asking + f.repairsHigh + f.fees,
        f.maxToPay, (asking : Int) - (f.maxToPay : Int)⟩
    | none => none
  else none

/-- Modelled from the spec, for comparison with `recomputeMoneyMath` only:
the post-processor the spec describes additionally validates
`maxPriceToPay <= askingPrice` and flags a violation as a data-quality
warning instead of passing it through silently. -/
structure MoneyMathTableChecked where
  table : MoneyMathTable
  maxPriceViolation : Bool
deriving DecidableEq, Repr

/-- Modelled from the spec, for comparison with `recomputeMoneyMath` only:
same recomputation, plus the violation flag the spec requires. -/
def recomputeMoneyMathSpec (role : String) (price : Option Nat)
    (matched : Option MoneyFigures) : Option MoneyMathTableChecked :=
  (recomputeMoneyMath role price matched).map
    fun t => ⟨t, decide (t.asking < t.maxToPay)⟩

/-! ## Report extraction and response (src/unnamed/part_002 lines 331-334;
src/api/submitEvaluation.js lines 301-305) -/

/-- One content part of a generated message; `textValue` models the
`c.text?.value` chain, `none` when the part has no text payload. -/
structure MessageContent where
  type : String
  textValue : Option String
deriving DecidableEq, Repr

/-- One message of the thread listing. -/
structure ThreadMessage where
  role : String
  content : List MessageContent
deriving DecidableEq, Repr

/-- Report extraction of part_002 lines 331-334:
`msgs.data.find(m => m.role === "assistant")?.content?.[0]?.text?.value || "No report generated."`.
Every break in the chain, and the empty string, falls back to the
placeholder. -/
def extractReport (msgs : List ThreadMessage) : String :=
  match msgs.find? (fun m => m.role == "assistant") with
  | none => "No report generated."
  | some m =>
    match m.content.head? with
    | none => "No report generated."
    | some c =>
      match c.textValue with
      | none => "No report generated."
      | some v => jsOr v "No report generated."

/-- Whether the chain above reaches a nonempty text value. -/
def hasReadableText (msgs : List ThreadMessage) : Bool :=
  match msgs.find? (fun m => m.role == "assistant") with
  | none => false
  | some m =>
    match m.content.head? with
    | none => false
    | some c =>
      match c.textValue with
      | none => false
      | some v => v != ""

/-! ## Handler dispatch, short-circuit mode and responses
(src/unnamed/part_003 lines 48-64 and 97-104; src/unnamed/part_001 lines 241-251) -/

/-- Scraped listing object built by `fetchListingData` on success. -/
structure ListingData where
  url : String
  title : String
  price : String
  mileage : String
  condition : String
deriving DecidableEq, Repr

/-- The four cheerio selector texts `fetchListingData` extracts from the
fetched HTML page. -/
structure ScrapedHtml where
  titleText : String
  priceText : String
  mileageText : String
  conditionText : String
deriving DecidableEq, Repr

/-- Listing scrape `fetchListingData` (part_003 lines 48-64): on a successful fetch it
returns the trimmed selector texts; any fetch, timeout or parse error is
caught and yields `null`. -/
def fetchListingData (url : String) (fetchResult : Except String ScrapedHtml) :
    Option ListingData :=
  match fetchResult with
  | .ok h => some ⟨url, h.titleText.trim, h.priceText.trim,
      h.mileageText.trim, h.conditionText.trim⟩
  | .error _ => none

/-- Body of the HTTP response the handler sends. -/
inductive HandlerBody where
  | report (text : String)
  | listing (l : Option ListingData)
  | errorMsg (msg : String)
deriving DecidableEq, Repr

/-- Status code plus body. -/
structure HandlerResponse where
  status : Nat
  body : HandlerBody
deriving DecidableEq, Repr

/-- The keys of `otherFields` holding a truthy value:
`Object.keys(otherFields).filter(k => otherFields[k])`. `otherFields` is the
flattened field map with `conditionNotes` and `session_id` already removed
by the destructuring. -/
def nonNoteKeys (otherFields : List (String × String)) : List String :=
  (otherFields.filter fun kv => kv.2 ≠ "").map fun kv => kv.1

/-- The short-circuit test of part_003 line 100 and part_001 line 244:
`listingLinks.length === 1 && nonNoteKeys.length === 0`, where
`listingLinks = extractRelevantURLs(conditionNotes)`. -/
def shortCircuitTriggered (listingLinks : List String)
    (otherFields : List (String × String)) : Bool :=
  listingLinks.length == 1 && (nonNoteKeys otherFields).isEmpty

/-- Which pipeline stages the handler entered for a request. -/
structure PipelineTrace where
  vinDecodeRan : Bool
  enrichmentRan : Bool
  generationRan : Bool
deriving DecidableEq, Repr

/-- Handler dispatch of part_003 lines 97-104 (identical in part_001 lines
241-251): when the short-circuit test holds, the handler scrapes the single
URL and returns 200 with `{ listing }` before any of the pipeline stages;
otherwise the full pipeline runs (VIN decode iff a VIN was supplied, then
enrichment, then the generation job), answering 200 with the report or 500
when the generation stage threw. -/
def handleSubmission (listingLinks : List String)
    (otherFields : List (String × String)) (scrapeResult : Option ListingData)
    (vin : String) (pipelineOutcome : Except String String) :
    HandlerResponse × PipelineTrace :=
  if shortCircuitTriggered listingLinks otherFields then
    (⟨200, .listing scrapeResult⟩, ⟨false, false, false⟩)
  else
    match pipelineOutcome with
    | .ok r => (⟨200, .report r⟩, ⟨vin ≠ "", true, true⟩)
    | .error _ => (⟨500, .errorMsg "Evaluation failed"⟩, ⟨vin ≠ "", true, true⟩)

/-- Success-path tail of the part_002 handler: `runFullEvaluationLogic`
returns the extracted report and the handler wraps whatever string it got in
`res.status(200).json({ report })`. -/
def finishEvaluation (msgs : List ThreadMessage) : HandlerResponse :=
  ⟨200, .report (extractReport msgs)⟩

/-! ## Audit sink (src/logTraffic.js) -/

/-- A field value of the logged request snapshot: a plain string or an
array-wrapped value. -/
inductive JsVal where
  | str (s : String)
  | arr (l : List String)
deriving DecidableEq, Repr

/-- Flattening step `Array.isArray(val) ? val[0] : val`; indexing an empty
array yields undefined, modelled as `none`. -/
def flattenVal : JsVal → Option String
  | .str s => some s
  | .arr [] => none
  | .arr (x :: _) => some x

/-- The `flatRequest` loop of `logTraffic`. -/
def flattenRequest (request : List (String × JsVal)) :
    List (String × Option String) :=
  request.map fun kv => (kv.1, flattenVal kv.2)

/-- Audit write `logTraffic` (src/logTraffic.js lines 22-35): the supabase insert runs
inside try/catch, a failed insert is logged to the console and swallowed;
the function always returns normally, carrying the flattened snapshot it
logged. -/
def logTraffic (request : List (String × JsVal))
    (insertOutcome : Except String Unit) :
    Except String (List (String × Option String)) :=
  match insertOutcome with
  | .ok _ => .ok (flattenRequest request)
  | .error _ => .ok (flattenRequest request)

/-- The handler success path around the audit call:
`await logTraffic(...); return res.status(200).json({ report })` inside the
handler try block, so the 200 response is reached unless `logTraffic` itself
raised, in which case the catch answers 500. -/
def respondWithAudit (report : String) (request : List (String × JsVal))
    (insertOutcome : Except String Unit) : HandlerResponse :=
  match logTraffic request insertOutcome with
  | .ok _ => ⟨200, .report report⟩
  | .error _ => ⟨500, .errorMsg "Evaluation failed"⟩

/-! ## Helper lemmas -/

/-- JS fallback with an empty right alternative is the identity. -/
lemma jsOr_empty_right (a : String) : jsOr a "" = a := by
  unfold jsOr
  split <;> simp_all

/-- Identity resolution falls back to the user fields, with the
current-year default for a blank year, whenever no VIN was supplied or the
decode errored. -/
lemma resolveIdentity_no_decode (vin : String) (f : Except String DecodedData)
    (year make model currentYear : String)
    (h : vin = "" ∨ ∃ e, f = .error e) :
    resolveIdentity vin f year make model currentYear =
      ⟨if year = "" then currentYear else year, make, model⟩ := by
  rcases h with h | ⟨e, he⟩
  · subst h
    by_cases hy : year = "" <;> by_cases hm : make = "" <;> by_cases hmo : model = "" <;>
      simp [resolveIdentity, decodeVin, emptyDecoded, jsOr, hy, hm, hmo]
  · subst he
    by_cases hy : year = "" <;> by_cases hm : make = "" <;> by_cases hmo : model = "" <;>
      simp [resolveIdentity, decodeVin, emptyDecoded, jsOr, hy, hm, hmo]

/-- The early-revision poll loop never stops on a run that stays queued,
whatever fuel it gets. -/
lemma pollLoopV1_stuck (i fuel : Nat) : pollLoopV1 stuckTrace i fuel = none := by
  induction fuel generalizing i with
  | zero => rfl
  | succ n ih => simp [pollLoopV1, stuckTrace, ih]

/-- The revised poll loop reaches a decision: as long as each iteration
observes at least 1500ms more elapsed time, 42 polls always suffice to hit
success, failure or the 60s timeout check. -/
lemma pollLoopRun_reaches_decision (trace : Nat → String) (elapsed : Nat → Nat)
    (hgrow : ∀ i, elapsed i + 1500 ≤ elapsed (i + 1)) :
    ∀ fuel i, 1500 * i ≤ elapsed i → 42 ≤ i + fuel → 1 ≤ fuel →
      pollLoopRun trace elapsed i fuel ≠ none := by
  intro fuel
  induction fuel with
  | zero =>
    intro i _ _ hf
    exact absurd hf (by omega)
  | succ n ih =>
    intro i hlow htot _
    simp only [pollLoopRun]
    split
    · simp
    split
    · simp
    split
    · simp
    rename_i hne
    have hi : i ≤ 40 := by omega
    exact ih (i + 1) (by have := hgrow i; omega) (by omega) (by omega)

/-- The short-circuit key test holds exactly when every field besides the
notes and the session id is blank. -/
lemma nonNoteKeys_isEmpty_iff (of : List (String × String)) :
    (nonNoteKeys of).isEmpty = true ↔ ∀ kv ∈ of, kv.2 = "" := by
  induction of with
  | nil => simp [nonNoteKeys]
  | cons kv rest ih =>
    by_cases h : kv.2 = ""
    · simp [nonNoteKeys, List.filter_cons, h, ih]
    · simp [nonNoteKeys, List.filter_cons, h]

/-! ## Claim theorems -/

/-- C6: identity resolution uses decoded VIN values only for the
year, make and model fields the user left blank (a nonblank user field
always wins); on decoder error it falls back to all user-supplied fields
without raising; without a VIN the resolved identity is exactly the
user-supplied fields, the year defaulting to the current calendar year only
when both the decode value and the user field are absent. -/
theorem c6_identity_resolution (vin : String) (f : Except String DecodedData)
    (year make model currentYear : String) :
    ((year ≠ "" → (resolveIdentity vin f year make model currentYear).recallYear = year) ∧
     (make ≠ "" → (resolveIdentity vin f year make model currentYear).recallMake = make) ∧
     (model ≠ "" → (resolveIdentity vin f year make model currentYear).recallModel = model)) ∧
    (∀ e, f = .error e →
      resolveIdentity vin f year make model currentYear =
        ⟨if year = "" then currentYear else year, make, model⟩) ∧
    (resolveIdentity "" f year make model currentYear =
      ⟨if year = "" then currentYear else year, make, model⟩) ∧
    (∀ d, f = .ok d → vin ≠ "" →
      resolveIdentity vin f year make model currentYear =
        ⟨jsOr year (jsOr d.ModelYear currentYear),
         jsOr make d.Make, jsOr model d.Model⟩) := by
  refine ⟨⟨?_, ?_, ?_⟩, ?_, ?_, ?_⟩
  · intro h
    simp [resolveIdentity, jsOr, h]
  · intro h
    simp [resolveIdentity, jsOr, h]
  · intro h
    simp [resolveIdentity, jsOr, h]
  · intro e he
    exact resolveIdentity_no_decode vin f year make model currentYear (Or.inr ⟨e, he⟩)
  · exact resolveIdentity_no_decode "" f year make model currentYear (Or.inl rfl)
  · intro d hd hvin
    subst hd
    simp [resolveIdentity, decodeVin, hvin, jsOr_empty_right]

/-- C6 witness: concrete runs of the theorem, one per fallback mode. -/
theorem c6_identity_resolution_witness :
    (resolveIdentity "1FTFW1ET1EFA00001" (.ok ⟨"2014", "Ford", "F-150"⟩)
        "" "Honda" "" "2025").recallMake = "Honda" ∧
    resolveIdentity "" (.ok ⟨"2014", "Ford", "F-150"⟩) "2019" "Honda" "Civic" "2025"
      = ⟨"2019", "Honda", "Civic"⟩ ∧
    resolveIdentity "1FT" (.error "timeout") "" "" "" "2025" = ⟨"2025", "", ""⟩ ∧
    resolveIdentity "1FT" (.ok ⟨"2014", "Ford", "F-150"⟩) "" "Honda" "" "2025"
      = ⟨"2014", "Honda", "F-150"⟩ := by
  refine ⟨?_, ?_, ?_, ?_⟩
  · exact (c6_identity_resolution "1FTFW1ET1EFA00001" (.ok ⟨"2014", "Ford", "F-150"⟩)
      "" "Honda" "" "2025").1.2.1 (by decide)
  · exact ((c6_identity_resolution "" (.ok ⟨"2014", "Ford", "F-150"⟩)
      "2019" "Honda" "Civic" "2025").2.2.1).trans (by decide)
  · exact ((c6_identity_resolution "1FT" (.error "timeout")
      "" "" "" "2025").2.1 "timeout" rfl).trans (by decide)
  · exact ((c6_identity_resolution "1FT" (.ok ⟨"2014", "Ford", "F-150"⟩)
      "" "Honda" "" "2025").2.2.2 ⟨"2014", "Ford", "F-150"⟩ rfl (by decide)).trans (by decide)

/-- C4 counterexample: with three submitted photos of which the second is
zero-byte, the code forwards exactly one photo, although two photos pass the
filter; the claimed filter-first selection would forward two. -/
theorem c4_counterexample :
    selectUploads [⟨100, "image/jpeg"⟩, ⟨0, "image/jpeg"⟩, ⟨100, "image/png"⟩]
      = [⟨100, "image/jpeg"⟩] ∧
    ((List.filter isForwardablePhoto
        [⟨100, "image/jpeg"⟩, ⟨0, "image/jpeg"⟩, ⟨100, "image/png"⟩]).take 2).length
      = 2 := by decide

/-- C4 (amended): at most 2 photos are forwarded, every forwarded photo has
positive size and an image MIME type, forwarding preserves submission order,
and exactly the first two photos are forwarded whenever both pass the
filter; but the code slices to the first two before filtering, so a valid
later photo cannot replace an invalid earlier one. -/
theorem c4_photo_forwarding (photos : List Photo) :
    (selectUploads photos).length ≤ 2 ∧
    (∀ p ∈ selectUploads photos, 0 < p.size ∧ jsStartsWith p.mimetype "image/" = true) ∧
    List.Sublist (selectUploads photos) photos ∧
    (∀ p q rest, photos = p :: q :: rest →
      isForwardablePhoto p = true → isForwardablePhoto q = true →
      selectUploads photos = [p, q]) := by
  refine ⟨?_, ?_, ?_, ?_⟩
  · exact le_trans (List.length_filter_le _ _) (List.length_take_le 2 photos)
  · intro p hp
    have h2 := List.of_mem_filter hp
    simp only [isForwardablePhoto, Bool.and_eq_true, decide_eq_true_eq] at h2
    exact h2
  · exact (List.filter_sublist _).trans (List.take_sublist _ _)
  · rintro p q rest rfl hp hq
    simp [selectUploads, hp, hq]

/-- C4 witness: three valid photos, the first two forwarded in order. -/
theorem c4_photo_forwarding_witness :
    selectUploads [⟨5, "image/png"⟩, ⟨7, "image/jpeg"⟩, ⟨9, "image/gif"⟩]
      = [⟨5, "image/png"⟩, ⟨7, "image/jpeg"⟩] :=
  (c4_photo_forwarding _).2.2.2 _ _ _ rfl (by decide) (by decide)

/-- C2: a run that never reaches the completed status makes the
early-revision loop (submitEvaluation.js lines 97-102) poll forever, for
any amount of fuel, while the revised loop (part_002 lines 316-328) always
reaches a decision within 42 polls under its 60s budget, given that every
iteration observes at least the 1500ms sleep of elapsed time. -/
theorem c2_poll_termination_contrast :
    (∀ fuel, pollLoopV1 stuckTrace 0 fuel = none) ∧
    (∀ (trace : Nat → String) (elapsed : Nat → Nat),
      (∀ i, elapsed i + 1500 ≤ elapsed (i + 1)) →
      pollLoopRun trace elapsed 0 42 ≠ none) := by
  constructor
  · intro fuel
    exact pollLoopV1_stuck 0 fuel
  · intro trace elapsed hgrow
    exact pollLoopRun_reaches_decision trace elapsed hgrow 42 0 (by omega) (by omega) (by omega)

/-- C2 witness: the stuck run at concrete fuel, and the revised loop under
a concrete 1600ms-per-iteration clock. -/
theorem c2_poll_termination_contrast_witness :
    pollLoopV1 stuckTrace 0 500 = none ∧
    pollLoopRun stuckTrace elapsedBy1600 0 42 ≠ none :=
  ⟨c2_poll_termination_contrast.1 500,
   c2_poll_termination_contrast.2 stuckTrace elapsedBy1600
     (fun i => by simp only [elapsedBy1600]; omega)⟩

/-- A nonempty retail search result used by the C1 counterexample. -/
def c1RetailHit : SearchData :=
  ⟨[⟨"2014 Ford F-150 for sale", "priced at 9000", "retail-link"⟩]⟩

/-- C1 counterexample: the recall branch fails while the retail branch
succeeds with data, yet the bundle handed to the prompt assembler holds the
empty default in the retail category — the succeeded branch is not kept, so
branch failures are not isolated to their own category. -/
theorem c1_counterexample :
    (runEnrichment (.error "recall branch timed out") (.ok c1RetailHit)
        (.ok ⟨[]⟩) (.ok ⟨[]⟩)).retailData = emptySearchData ∧
    c1RetailHit ≠ emptySearchData := by decide

/-- C1 (amended): the fan-out never raises into the pipeline, and when all
four branches resolve with an ok recall response the bundle carries each
branch result; but on any single branch failure, or a non-ok recall
response, every category jointly degrades to its no-data default. -/
theorem c1_enrichment_joint_degradation
    (rRes : Except String RecallFetchResponse)
    (retailRes auctionRes vinRes : Except String SearchData) :
    (∀ r retail auction vinD, rRes = .ok r → retailRes = .ok retail →
      auctionRes = .ok auction → vinRes = .ok vinD → r.ok = true →
      runEnrichment rRes retailRes auctionRes vinRes =
        ⟨some r.body, retail, auction, vinD⟩) ∧
    ((∃ e, rRes = .error e) ∨ (∃ e, retailRes = .error e) ∨
      (∃ e, auctionRes = .error e) ∨ (∃ e, vinRes = .error e) ∨
      (∃ r, rRes = .ok r ∧ r.ok = false) →
      runEnrichment rRes retailRes auctionRes vinRes = degradedEnrichment) := by
  constructor
  · rintro r retail auction vinD rfl rfl rfl rfl hok
    simp [runEnrichment, hok]
  · rintro (⟨e, rfl⟩ | ⟨e, rfl⟩ | ⟨e, rfl⟩ | ⟨e, rfl⟩ | ⟨r, rfl, hok⟩)
    · rfl
    · rcases rRes with e1 | r1 <;> rfl
    · rcases rRes with e1 | r1 <;> rcases retailRes with e2 | r2 <;> rfl
    · rcases rRes with e1 | r1 <;> rcases retailRes with e2 | r2 <;>
        rcases auctionRes with e3 | r3 <;> rfl
    · rcases retailRes with e2 | r2 <;> rcases auctionRes with e3 | r3 <;>
        rcases vinRes with e4 | r4 <;> simp [runEnrichment, hok]

/-- C1 witness: an all-ok run keeping every branch, and a run with a failed
recall branch degrading everything. -/
theorem c1_enrichment_joint_degradation_witness :
    runEnrichment (.ok ⟨true, ⟨2, some ["airbag recall", "brake recall"]⟩⟩)
        (.ok c1RetailHit) (.ok ⟨[]⟩) (.ok ⟨[]⟩) =
      ⟨some ⟨2, some ["airbag recall", "brake recall"]⟩, c1RetailHit, ⟨[]⟩, ⟨[]⟩⟩ ∧
    runEnrichment (.error "timeout") (.ok c1RetailHit) (.ok ⟨[]⟩) (.ok ⟨[]⟩)
      = degradedEnrichment :=
  ⟨(c1_enrichment_joint_degradation (.ok ⟨true, ⟨2, some ["airbag recall", "brake recall"]⟩⟩)
      (.ok c1RetailHit) (.ok ⟨[]⟩) (.ok ⟨[]⟩)).1 _ _ _ _ rfl rfl rfl rfl rfl,
   (c1_enrichment_joint_degradation (.error "timeout")
      (.ok c1RetailHit) (.ok ⟨[]⟩) (.ok ⟨[]⟩)).2 (Or.inl ⟨"timeout", rfl⟩)⟩

/-- C3 counterexample: with asking 6000 and a generated maxPriceToPay of
7000, the post-processor returns the plain recomputed table with the
violating figure written through verbatim and a negative savings row — no
validation and no flag — whereas the spec-modelled post-processor marks the
violation. -/
theorem c3_counterexample :
    recomputeMoneyMath "Buyer" (some 6000) (some ⟨800, 1200, 400, 7000⟩) =
      some ⟨6000, 800, 1200, 400, 7200, 7600, 7000, -1000⟩ ∧
    recomputeMoneyMathSpec "Buyer" (some 6000) (some ⟨800, 1200, 400, 7000⟩) =
      some ⟨⟨6000, 800, 1200, 400, 7200, 7600, 7000, -1000⟩, true⟩ := by decide

/-- C3 (amended): for Buyer and Flipper roles the money-math table is
re-derived deterministically — all-in-low and all-in-high are asking plus
repairs plus fees, savings is asking minus maxPriceToPay, matching the
spec example 6000 + 800..1200 + 400 = 7200..7600 — but maxPriceToPay is
never validated against the asking price: every captured figure is passed
through unchanged, and non-Buyer, non-Flipper roles skip the recomputation
entirely. -/
theorem c3_money_math_recomputed (role : String) (price : Nat) (f : MoneyFigures)
    (hrole : role = "Buyer" ∨ role = "Flipper") :
    recomputeMoneyMath role (some price) (some f) =
      some ⟨price, f.repairsLow, f.repairsHigh, f.fees,
        price + f.repairsLow + f.fees, price + f.repairsHigh + f.fees,
        f.maxToPay, (price : Int) - (f.maxToPay : Int)⟩ ∧
    recomputeMoneyMath "Buyer" (some 6000) (some ⟨800, 1200, 400, 5500⟩) =
      some ⟨6000, 800, 1200, 400, 7200, 7600, 5500, 500⟩ ∧
    (∀ r2 p2 m2, r2 ≠ "Buyer" → r2 ≠ "Flipper" →
      recomputeMoneyMath r2 p2 m2 = none) := by
  refine ⟨?_, by decide, ?_⟩
  · unfold recomputeMoneyMath
    rw [if_pos hrole]
    rfl
  · intro r2 p2 m2 h1 h2
    have hcon : ¬(r2 = "Buyer" ∨ r2 = "Flipper") := by
      rintro (h | h)
      exacts [h1 h, h2 h]
    unfold recomputeMoneyMath
    rw [if_neg hcon]

/-- C3 witness: the theorem applied to a Flipper run and to a Seller run. -/
theorem c3_money_math_recomputed_witness :
    recomputeMoneyMath "Flipper" (some 3000) (some ⟨100, 200, 50, 2500⟩) =
      some ⟨3000, 100, 200, 50, 3150, 3250, 2500, 500⟩ ∧
    recomputeMoneyMath "Seller" (some 3000) (some ⟨100, 200, 50, 2500⟩) = none :=
  ⟨((c3_money_math_recomputed "Flipper" 3000 ⟨100, 200, 50, 2500⟩ (Or.inr rfl)).1).trans
      (by decide),
   (c3_money_math_recomputed "Flipper" 3000 ⟨100, 200, 50, 2500⟩ (Or.inr rfl)).2.2
      "Seller" (some 3000) (some ⟨100, 200, 50, 2500⟩) (by decide) (by decide)⟩

/-- C5 counterexample: a listing with no readable assistant text, and one
whose only text value is empty, both yield an HTTP 200 success carrying the
placeholder report string — not a distinguishable error state. -/
theorem c5_counterexample :
    finishEvaluation [⟨"assistant", []⟩] = ⟨200, .report "No report generated."⟩ ∧
    finishEvaluation [⟨"assistant", [⟨"text", some ""⟩]⟩]
      = ⟨200, .report "No report generated."⟩ := by decide

/-- C5 (amended): the success-path response always has status 200, and
whenever the generation service produced no readable assistant text the
caller receives that 200 success with the placeholder body instead of an
error state. -/
theorem c5_unreadable_output_masked (msgs : List ThreadMessage) :
    (finishEvaluation msgs).status = 200 ∧
    (hasReadableText msgs = false →
      finishEvaluation msgs = ⟨200, .report "No report generated."⟩) := by
  constructor
  · rfl
  · intro h
    cases hfind : msgs.find? fun m => m.role == "assistant" with
    | none => simp [finishEvaluation, extractReport, hfind]
    | some m =>
      cases hhead : m.content.head? with
      | none => simp [finishEvaluation, extractReport, hfind, hhead]
      | some c =>
        cases htv : c.textValue with
        | none => simp [finishEvaluation, extractReport, hfind, hhead, htv]
        | some v =>
          have hv : v = "" := by
            unfold hasReadableText at h
            rw [hfind] at h
            simp only [hhead, htv] at h
            simpa using h
          simp [finishEvaluation, extractReport, hfind, hhead, htv, hv, jsOr]

/-- C5 witness: the theorem applied to a message whose single content part
is an image with no text payload. -/
theorem c5_unreadable_output_masked_witness :
    finishEvaluation [⟨"assistant", [⟨"image_file", none⟩]⟩]
      = ⟨200, .report "No report generated."⟩ :=
  (c5_unreadable_output_masked [⟨"assistant", [⟨"image_file", none⟩]⟩]).2 (by decide)

/-- C7: the link-only short-circuit triggers exactly when the notes contain
exactly one recognized listing URL and every other user field is blank; in
that mode the handler answers 200 with only the scraped listing and no
pipeline stage runs; in every other case the enrichment and generation
stages run (and VIN decode exactly when a VIN was supplied) and the
response is never a listing. -/
theorem c7_short_circuit_mode (links : List String) (of : List (String × String))
    (scrape : Option ListingData) (vin : String) (out : Except String String) :
    (shortCircuitTriggered links of = true ↔
      (links.length = 1 ∧ ∀ kv ∈ of, kv.2 = "")) ∧
    (shortCircuitTriggered links of = true →
      handleSubmission links of scrape vin out =
        (⟨200, .listing scrape⟩, ⟨false, false, false⟩)) ∧
    (shortCircuitTriggered links of = false →
      (handleSubmission links of scrape vin out).2.enrichmentRan = true ∧
      (handleSubmission links of scrape vin out).2.generationRan = true ∧
      ((handleSubmission links of scrape vin out).2.vinDecodeRan = true ↔ vin ≠ "") ∧
      ∀ l, (handleSubmission links of scrape vin out).1.body ≠ .listing l) := by
  refine ⟨?_, ?_, ?_⟩
  · rw [shortCircuitTriggered, Bool.and_eq_true]
    constructor
    · rintro ⟨ha, hb⟩
      exact ⟨by simpa using ha, (nonNoteKeys_isEmpty_iff of).mp hb⟩
    · rintro ⟨ha, hb⟩
      exact ⟨by simp [ha], (nonNoteKeys_isEmpty_iff of).mpr hb⟩
  · intro h
    simp [handleSubmission, h]
  · intro h
    simp only [handleSubmission, h, Bool.false_eq_true, if_false]
    rcases out with e | r <;> simp

/-- C7 witness: a link-only submission short-circuits; a submission with a
role filled in runs the enrichment stage. -/
theorem c7_short_circuit_mode_witness :
    handleSubmission ["https://copart.example/lot/1"] [("role", ""), ("zip", "")]
        none "" (.ok "r") = (⟨200, .listing none⟩, ⟨false, false, false⟩) ∧
    (handleSubmission ["https://copart.example/lot/1"] [("role", "Buyer")]
        none "1FT" (.ok "r")).2.enrichmentRan = true :=
  ⟨(c7_short_circuit_mode ["https://copart.example/lot/1"] [("role", ""), ("zip", "")]
      none "" (.ok "r")).2.1 (by decide),
   ((c7_short_circuit_mode ["https://copart.example/lot/1"] [("role", "Buyer")]
      none "1FT" (.ok "r")).2.2 (by decide)).1⟩

/-- C8: the recall registry never answers with a summaries field — its
successful response is count plus the raw filtered records, the count
matching the record list — while the evaluation pipeline dereferences
exactly the missing summaries array, so a successful lookup with matches
makes the recall-block construction throw instead of rendering summaries;
here evaluated at the failing query make Ford, model F-150, year 2014 over
a chunk set holding two matching records. -/
theorem c8_registry_consumer_mismatch :
    (∀ mk md yr chunks, (recallsHandler mk md yr chunks).summaries = none) ∧
    (∀ mk md yr recalls,
      ((recallsHandler (some mk) (some md) (some yr) (.ok recalls)).count).getD 0 =
      (((recallsHandler (some mk) (some md) (some yr) (.ok recalls)).results).getD []).length) ∧
    (recallsHandler (some "Ford") (some "F-150") (some "2014")
        (.ok [⟨some "Ford F-150 2014 seat belt pretensioner", none⟩,
              ⟨some "2015 Honda Civic airbag inflator", none⟩,
              ⟨some "2014 Ford F-150 brake master cylinder", none⟩]) =
      ⟨200, some 2, some [⟨some "Ford F-150 2014 seat belt pretensioner", none⟩,
              ⟨some "2014 Ford F-150 brake master cylinder", none⟩], none, none⟩) ∧
    (buildRecallBlock (some (parseRecallResponse
        (recallsHandler (some "Ford") (some "F-150") (some "2014")
          (.ok [⟨some "Ford F-150 2014 seat belt pretensioner", none⟩,
                ⟨some "2015 Honda Civic airbag inflator", none⟩,
                ⟨some "2014 Ford F-150 brake master cylinder", none⟩]))))
      = .error "TypeError: cannot read map of undefined summaries") := by
  refine ⟨?_, ?_, by decide, rfl⟩
  · intro mk md yr chunks
    rcases mk with _ | mk
    · rfl
    rcases md with _ | md
    · rfl
    rcases yr with _ | yr
    · rfl
    simp only [recallsHandler]
    split
    · rfl
    rcases chunks with e | recalls <;> rfl
  · intro mk md yr recalls
    simp only [recallsHandler]
    split <;> rfl

/-- C9: a failed audit-sink write is absorbed inside logTraffic, never
propagates, and leaves the caller-visible response — status code and body —
identical to the one of a successful write. -/
theorem c9_audit_failure_isolated (report : String)
    (request : List (String × JsVal)) (o : Except String Unit) :
    respondWithAudit report request o = ⟨200, .report report⟩ ∧
    respondWithAudit report request o = respondWithAudit report request (.ok ()) ∧
    logTraffic request o = .ok (flattenRequest request) := by
  rcases o with e | u <;> exact ⟨rfl, rfl, rfl⟩

/-- C10: in the link-only short-circuit mode a failed or timed-out listing
scrape still yields an HTTP 200 success whose listing field is null. -/
theorem c10_scrape_failure_still_success (links : List String)
    (of : List (String × String)) (vin url e : String)
    (out : Except String String)
    (h : shortCircuitTriggered links of = true) :
    handleSubmission links of (fetchListingData url (.error e)) vin out =
      (⟨200, .listing none⟩, ⟨false, false, false⟩) := by
  simp [handleSubmission, h, fetchListingData]

/-- C10 witness: a concrete link-only request whose scrape timed out. -/
theorem c10_scrape_failure_witness :
    handleSubmission ["https://iaai.example/item/2"] [("year", "")]
        (fetchListingData "https://iaai.example/item/2" (.error "timeout")) "" (.ok "r")
      = (⟨200, .listing none⟩, ⟨false, false, false⟩) :=
  c10_scrape_failure_still_success ["https://iaai.example/item/2"] [("year", "")]
    "" "https://iaai.example/item/2" "timeout" (.ok "r") (by decide)

end JasonLogic
